import Mathlib

/-!
# Vale-Structs: shallow embedding of the variant and fixed-array containers

This file embeds the core of the Vale-Structs library and proves properties of it.

The variant (`vale::variant_impl` in the final revision, `src/unnamed/part_000`)
stores one value of one of `n` alternative types in an inline buffer and keeps a
`uint16_t type` tag: an alternative index in `[0, n)` or the sentinel `n`
(written by `set_invalid_state`) meaning that no payload is constructed.  We
model the compile-time parameter pack as a list of descriptors (`CppType`), the
stored payload abstractly by a type parameter `Value`, and instrument each state
with an instance counter and a destructor-invocation log so that lifetime
properties are observable.  A constructor call that throws is modelled by the
`Option Value` argument being `none`; the `Bool` component of an operation
result is `false` when the exception propagates out of the operation.

The fixed array (`vale::array`, `src/unnamed/part_001` and `part_002`) is
modelled by `varray`, its bounds-checked `operator[]` by `array_subscript`, and
the sub-view constructor `to_view(offset, size)` with its `size_t` (mod `2^64`)
bounds guard by `to_view`.
-/

namespace vale

/-- Modulus of the `uint16_t type` tag field of the variant: writes to the tag
are truncated mod `2^16`. -/
def U16 : ℕ := 65536

/-- Modulus of `size_t` values: the arithmetic in the array bounds guards is
unsigned 64-bit, i.e. mod `2^64` (the literal below is `2^64`). -/
def W64 : ℕ := 18446744073709551616

/-- Compile-time descriptor of one alternative type `Ti` of a variant pack:
whether `std::is_fundamental_v<Ti>` holds, and whether `Ti` is trivially
destructible.  Every fundamental type is trivially destructible, but not
conversely: a POD `struct` is trivially destructible yet not fundamental. -/
structure CppType where
  fundamental : Bool
  triviallyDestructible : Bool
deriving DecidableEq

/-- `helpers::count_fundamental_v` (part_005, lines 390-404): the number of
fundamental types in the parameter pack. -/
def count_fundamental (pack : List CppType) : ℕ :=
  (pack.filter (fun t => t.fundamental)).length

/-- `helpers::count_non_fundamental_v` (part_005, lines 406-420): the number of
non-fundamental types in the parameter pack. -/
def count_non_fundamental (pack : List CppType) : ℕ :=
  (pack.filter (fun t => !t.fundamental)).length

/-- `vale::algorithm` (variant.h, lines 23-26). -/
inductive algorithm where
  | linear_complexity
  | constant_complexity
deriving DecidableEq

/-- The destruction policies accepted by `variant_impl`
(`[Auto|Linear|Constant]ComplexityDestruct`). -/
inductive DestructionPolicy where
  | AutoComplexityDestruct
  | LinearComplexityDestruct
  | ConstantComplexityDestruct
deriving DecidableEq

/-- `variant_impl::destructor_complexity` (part_000, lines 312-333): under the
automatic policy, constant complexity is chosen when
`count_non_fundamental_v > ((sizeof...(Rest) + 1) * 9) / 10` in C++ integer
division; an explicit policy is returned unchanged. -/
def destructor_complexity (policy : DestructionPolicy) (pack : List CppType) :
    algorithm :=
  match policy with
  | .AutoComplexityDestruct =>
      if count_non_fundamental pack > pack.length * 9 / 10 then
        .constant_complexity
      else
        .linear_complexity
  | .ConstantComplexityDestruct => .constant_complexity
  | .LinearComplexityDestruct => .linear_complexity

/-- `variant_impl::can_be_invalid` (part_000, lines 297-302):
`sizeof...(Rest) + 1 != helpers::count_fundamental_v<First, Rest...>`. -/
def can_be_invalid (pack : List CppType) : Bool :=
  pack.length != count_fundamental pack

/-- The three runtime error kinds of the library:
`vale::bad_variant_access` (typed get on an inactive type),
`vale::invalid_variant_access` (visiting an invalid variant) and
`std::out_of_range` (array index, offset or size out of bounds). -/
inductive cpp_exception where
  | bad_variant_access
  | invalid_variant_access
  | out_of_range
deriving DecidableEq

/-- State of a `variant_impl<DestructionPolicy, NonThreadSafe, First, Rest...>`
(part_000, lines 260-707).  `type` is the `uint16_t` tag and `buffer` the
logical content of the stack buffer.  The remaining fields instrument object
lifetimes: `inst` is the identity of the payload instance most recently
placement-constructed in the buffer, `nextInst` a fresh-identity counter, and
`dtorLog` records, in order, the instance identities on which a payload
destructor has been invoked. -/
structure variant_state (Value : Type) where
  type : ℕ
  buffer : Value
  inst : ℕ
  nextInst : ℕ
  dtorLog : List ℕ
deriving DecidableEq

variable {Value : Type}

/-- `variant_impl::set_invalid_state` (part_000, lines 635-639):
`type = sizeof...(Rest) + 1`, i.e. the sentinel `n` for a pack of `n` types,
stored into the `uint16_t` tag. -/
def set_invalid_state (n : ℕ) (s : variant_state Value) : variant_state Value :=
  { s with type := n % U16 }

/-- `variant_impl::construct<T>` (part_000, lines 573-600): first the tag is set
to the index of `T` in the pack, then the payload is placement-constructed; if
the constructor throws (`res = none`), `set_invalid_state()` runs and the
exception is rethrown.  The `Bool` result is `false` exactly when the exception
propagates to the caller.  A successful construction creates a fresh payload
instance; a failed one leaves no live object. -/
def construct (n i : ℕ) (res : Option Value) (s : variant_state Value) :
    variant_state Value × Bool :=
  match res with
  | some v =>
      ({ type := i % U16, buffer := v, inst := s.nextInst,
         nextInst := s.nextInst + 1, dtorLog := s.dtorLog }, true)
  | none => (set_invalid_state n { s with type := i % U16 }, false)

/-- `variant_impl::get<T>` (part_000, lines 483-496), with `i` the compile-time
index of `T` in the pack: if the tag equals `i` the stored value is returned,
otherwise `vale::bad_variant_access` is thrown. -/
def get (i : ℕ) (s : variant_state Value) : Except cpp_exception Value :=
  if s.type = i then .ok s.buffer else .error .bad_variant_access

/-- `variant_impl::index` (part_000, line 515): the raw tag. -/
def index (s : variant_state Value) : ℕ := s.type

/-- `variant_impl::is_valid` (part_000, lines 517-519):
`type != sizeof...(Rest) + 1`. -/
def is_valid (n : ℕ) (s : variant_state Value) : Bool := s.type != n

/-- `variant::is_valid` as written in the named header
(src/vale_structs/include/vale_structs/variant.h, lines 138-140):
`type == sizeof...(Rest) + 1`.  Note the `==` where part_000 has `!=`. -/
def is_valid_h (n : ℕ) (s : variant_state Value) : Bool := s.type == n

/-- `variant_impl::holds_active_type<T>` (part_000, lines 552-561), with `i`
the compile-time index of `T`. -/
def holds_active_type (i : ℕ) (s : variant_state Value) : Bool := s.type == i

/-- `variant_impl::impl_destruct_active_linear` (part_000, lines 645-662):
recursion over the pack, comparing each candidate index with the tag; at the
first match the destructor of that alternative is invoked on the buffer and the
recursion stops, and when the indices are exhausted nothing happens.
`idx` is the current candidate index, `remaining` the number of pack entries
left to examine. -/
def impl_destruct_active_linear (idx remaining : ℕ) (s : variant_state Value) :
    variant_state Value :=
  match remaining with
  | 0 => s
  | r + 1 =>
      if idx = s.type then { s with dtorLog := s.dtorLog ++ [s.inst] }
      else impl_destruct_active_linear (idx + 1) r s

/-- `variant_impl::impl_destruct_active_constant` (part_000, lines 668-680):
`dt[type](buffer)` where `dt` is a `vale::array` of one destructor thunk per
alternative.  The table lookup is bounds-checked, but the function is only
invoked on a valid variant, whose tag is an alternative index, so the thunk at
index `type` runs and destroys the live payload instance. -/
def impl_destruct_active_constant (s : variant_state Value) :
    variant_state Value :=
  { s with dtorLog := s.dtorLog ++ [s.inst] }

/-- `variant_impl::destruct_active` (part_000, lines 602-633): a no-op when all
pack types are fundamental; otherwise, when the variant is valid, dispatch to
the constant- or linear-complexity destruction algorithm according to
`destructor_complexity()`, and do nothing when the variant is invalid.
(When some type is non-fundamental, `can_be_invalid()` necessarily holds, so
the validity check is always performed in that case.) -/
def destruct_active (policy : DestructionPolicy) (pack : List CppType)
    (s : variant_state Value) : variant_state Value :=
  if pack.all (fun t => t.fundamental) then s
  else
    if is_valid pack.length s then
      if destructor_complexity policy pack = .constant_complexity then
        impl_destruct_active_constant s
      else
        impl_destruct_active_linear 0 pack.length s
    else s

/-- `variant_impl::emplace<T>` (part_000, lines 541-550): destroy the active
payload, then construct the new one in place. -/
def emplace (policy : DestructionPolicy) (pack : List CppType) (i : ℕ)
    (res : Option Value) (s : variant_state Value) : variant_state Value × Bool :=
  construct pack.length i res (destruct_active policy pack s)

/-- `variant_impl::operator=(T&&)` (part_000, lines 468-481): destroy the active
payload, then construct the new one from the assigned value. -/
def assign (policy : DestructionPolicy) (pack : List CppType) (i : ℕ)
    (res : Option Value) (s : variant_state Value) : variant_state Value × Bool :=
  construct pack.length i res (destruct_active policy pack s)

/-- The converting constructor `variant_impl(T&&)` (part_000, lines 386-396):
`construct<T>` on a fresh object.  `v0` is the unspecified initial buffer
content, read only if the construction fails. -/
def variant_new (n i : ℕ) (res : Option Value) (v0 : Value) :
    variant_state Value × Bool :=
  construct n i res { type := 0, buffer := v0, inst := 0, nextInst := 0, dtorLog := [] }

/-- `variant_impl<ThreadSafe>::operator=(T&&)` (part_000, lines 853-865): under
the lock, `variant.destruct_active()` and then `variant = forward(obj)`, where
the inner non-thread-safe `operator=` itself begins with `destruct_active()`. -/
def ts_assign (policy : DestructionPolicy) (pack : List CppType) (i : ℕ)
    (res : Option Value) (s : variant_state Value) : variant_state Value × Bool :=
  assign policy pack i res (destruct_active policy pack s)

/-- `variant_impl<ThreadSafe>::try_emplace` (part_000, lines 871-892): under the
lock, `variant.destruct_active()` and then `variant.emplace<T>(...)`, where the
inner `emplace` itself begins with `destruct_active()`.  Only the state effect
is modelled here (in the throwing-constructor instantiation the success branch
of the source even lacks a return statement). -/
def ts_try_emplace (policy : DestructionPolicy) (pack : List CppType) (i : ℕ)
    (res : Option Value) (s : variant_state Value) : variant_state Value :=
  (emplace policy pack i res (destruct_active policy pack s)).1

/-- `variant_impl<ThreadSafe>::emplace_and` (part_000, lines 894-916): under the
lock, `variant.destruct_active()`, then `variant.emplace<T>(...)`, then the
caller function is applied to the new value.  Only the state effect is
modelled. -/
def ts_emplace_and (policy : DestructionPolicy) (pack : List CppType) (i : ℕ)
    (res : Option Value) (s : variant_state Value) : variant_state Value :=
  (emplace policy pack i res (destruct_active policy pack s)).1

/-- `variant_impl::print` (part_000, lines 521-539): when the pack allows the
invalid state, a valid variant dispatches through the table of per-type
formatter thunks at the tag index and an invalid one throws
`vale::invalid_variant_access`; when the pack cannot be invalid the dispatch is
unconditional.  The dispatch table is a `vale::array` of `n` entries whose
`operator[]` is bounds-checked.  The result records the index of the
alternative whose formatter (`helpers::print_variant_ptr<T>`) is invoked. -/
def print (pack : List CppType) (s : variant_state Value) :
    Except cpp_exception ℕ :=
  if can_be_invalid pack then
    if is_valid pack.length s then
      if s.type < pack.length then .ok s.type else .error .out_of_range
    else .error .invalid_variant_access
  else
    if s.type < pack.length then .ok s.type else .error .out_of_range

/-- `variant_impl<ThreadSafe>::get_and` (part_000, lines 918-948): under the
lock, if `holds_active_type<T>()` then the caller function is applied to
`get<T>()` and `true` is returned, otherwise `false` is returned without
calling the function.  The list records the values the caller function is
applied to. -/
def get_and (i : ℕ) (s : variant_state Value) : Bool × List Value :=
  if holds_active_type i s then
    match get i s with
    | .ok v => (true, [v])
    | .error _ => (true, [])
  else (false, [])

/-- A fixed array `vale::array<T, nb_elem, NonThreadSafe>` (part_002, lines
247-371): `N` contiguously stored elements of type `T`. -/
structure varray (T : Type) (N : ℕ) where
  buffer : Fin N → T

/-- `array<T, nb_elem, NonThreadSafe>::operator[]` (part_002, lines 268-288):
return the element at `i` when `i < nb_elem`, otherwise throw
`std::out_of_range`.  The operation performs no write, so the array component
of the result is the unchanged input. -/
def array_subscript {T : Type} {N : ℕ} (a : varray T N) (i : ℕ) :
    Except cpp_exception T × varray T N :=
  if h : i < N then (.ok (a.buffer ⟨i, h⟩), a) else (.error .out_of_range, a)

/-- A `vale::array_view` = `contiguous_struct_view` (part_005): a pointer into
the parent buffer, represented by its element offset, plus a length. -/
structure array_view where
  off : ℕ
  len : ℕ
deriving DecidableEq

/-- `array<T, nb_elem, NonThreadSafe>::to_view(offset, size)` (part_002, lines
347-357 and part_001, lines 280-290): guard `offset + size - 1 < nb_elem`
evaluated in `size_t` arithmetic, i.e. mod `2^64`; on success the view
`(buffer + offset, size)` is returned, otherwise `std::out_of_range` is
thrown. -/
def to_view (N offset size : ℕ) : Except cpp_exception array_view :=
  if (offset + size + (W64 - 1)) % W64 < N then .ok { off := offset, len := size }
  else .error .out_of_range

/-- Modelled from the spec: the count of "non-trivial" types of the pack, read
as the types that are not trivially destructible.  The claim about automatic
destructor-complexity selection is phrased in terms of this quantity; the code
uses `count_non_fundamental` instead.  This definition exists only to compare
the two. -/
def spec_count_non_trivial (pack : List CppType) : ℕ :=
  (pack.filter (fun t => !t.triviallyDestructible)).length

/-! ## Concrete instantiations used in evaluations and witnesses -/

/-- A two-alternative pack modelling `variant<std::string, int>`:
`std::string` is neither fundamental nor trivially destructible, `int` is
both. -/
def packSI : List CppType := [⟨false, false⟩, ⟨true, true⟩]

/-- An all-fundamental two-alternative pack, modelling `variant<int, float>`. -/
def fundPack : List CppType := [⟨true, true⟩, ⟨true, true⟩]

/-- Two distinct POD class types (for example `struct A { int x; };` and
`struct B { long y; };`): trivially destructible but not fundamental. -/
def podPack : List CppType := [⟨false, true⟩, ⟨false, true⟩]

/-- A `variant<std::string, int>` freshly holding a string (alternative 0,
payload instance 0, with `42` standing for the string value). -/
def exampleSI : variant_state ℕ := (variant_new 2 0 (some 42) 0).1

/-- A two-alternative variant freshly holding alternative 1 with value `5`. -/
def exampleGood : variant_state ℕ := (variant_new 2 1 (some 5) 0).1

/-- A two-alternative variant whose initial construction threw: the tag is the
sentinel `2`. -/
def exampleInvalid : variant_state ℕ := (variant_new 2 0 none 0).1

/-- A concrete `array<nat, 2>` holding `3` and `4`. -/
def a2 : varray ℕ 2 := ⟨fun j => if j = 0 then 3 else 4⟩

/-! ## Helper lemmas -/

/-- After a failed construction the tag is the sentinel `n`, the exception
propagates, the variant is invalid, and no typed access succeeds. -/
theorem construct_none_invalid (n i : ℕ) (hn : n < U16) (s : variant_state Value) :
    (construct n i none s).1.type = n ∧ (construct n i none s).2 = false ∧
      is_valid n (construct n i none s).1 = false ∧
      ∀ j < n, (get j (construct n i none s).1).isOk = false := by
  have ht : (construct n i none s).1.type = n := by
    simp [construct, set_invalid_state, Nat.mod_eq_of_lt hn]
  refine ⟨ht, rfl, ?_, ?_⟩
  · simp [is_valid, ht]
  · intro j hj
    simp only [get, ht]
    rw [if_neg (by omega)]
    rfl

/-! ## Claims -/

/-- C1 (code-bug evidence).  The tag invariant claim says that at every
observable point either `is_valid()` is false, or it is true and exactly the
`get<Ti>()` at `index()` succeeds, and that immediately after a successful
construction `is_valid()` is true.  In the named header
(variant.h, line 140) `is_valid()` is `type == sizeof...(Rest) + 1`, the exact
inverse of part_000 (line 519, `!=`) and of its own documentation: right after
successfully constructing alternative 1 of a two-type variant it returns
`false` although `get` at index 1 succeeds, and after a failed construction it
returns `true` although no `get` succeeds.  The part_000 version `is_valid`
behaves as the claim states on both states. -/
theorem is_valid_inverted_in_variant_h :
    (is_valid_h 2 exampleGood = false ∧ (get 1 exampleGood).isOk = true ∧
      is_valid 2 exampleGood = true) ∧
    (is_valid_h 2 exampleInvalid = true ∧
      (∀ j < 2, (get j exampleInvalid).isOk = false) ∧
      is_valid 2 exampleInvalid = false) := by
  decide

/-- C2: Construction-failure atomicity.  For emplace, assignment from a value
and converting construction, if the payload constructor throws then the tag
equals the sentinel `n`, the exception propagates to the caller, `is_valid()`
is false afterwards, and `get` fails for every declared alternative. -/
theorem construction_failure_atomicity (policy : DestructionPolicy)
    (pack : List CppType) (i : ℕ) (hn : pack.length < U16)
    (s : variant_state Value) (v0 : Value) :
    ((emplace policy pack i none s).1.type = pack.length ∧
      (emplace policy pack i none s).2 = false ∧
      is_valid pack.length (emplace policy pack i none s).1 = false ∧
      ∀ j < pack.length, (get j (emplace policy pack i none s).1).isOk = false) ∧
    ((assign policy pack i none s).1.type = pack.length ∧
      (assign policy pack i none s).2 = false ∧
      is_valid pack.length (assign policy pack i none s).1 = false ∧
      ∀ j < pack.length, (get j (assign policy pack i none s).1).isOk = false) ∧
    ((variant_new pack.length i none v0).1.type = pack.length ∧
      (variant_new pack.length i none v0).2 = false ∧
      is_valid pack.length (variant_new pack.length i none v0).1 = false ∧
      ∀ j < pack.length, (get j (variant_new pack.length i none v0).1).isOk = false) :=
  ⟨construct_none_invalid pack.length i hn _,
   construct_none_invalid pack.length i hn _,
   construct_none_invalid pack.length i hn _⟩

/-- Witness for C2 at `variant<std::string, int>`, emplacing with a throwing
constructor from a state holding a string. -/
theorem construction_failure_atomicity_witness :
    packSI.length < U16 ∧
      (emplace .AutoComplexityDestruct packSI 0 none exampleSI).1.type = packSI.length ∧
      is_valid packSI.length (emplace .AutoComplexityDestruct packSI 0 none exampleSI).1 = false :=
  ⟨by decide,
   (construction_failure_atomicity .AutoComplexityDestruct packSI 0 (by decide)
      exampleSI (0 : ℕ)).1.1,
   (construction_failure_atomicity .AutoComplexityDestruct packSI 0 (by decide)
      exampleSI (0 : ℕ)).1.2.2.1⟩

/-- C3 (code-bug evidence).  Destruction-exactly-once fails through the
thread-safe wrapper: its `operator=(T&&)`, `try_emplace` and `emplace_and`
each call `destruct_active()` and then delegate to an inner operation that
calls `destruct_active()` again, with the tag unchanged in between, so the
destructor of the live payload instance (instance 0 here) is invoked twice.
The bare non-thread-safe `emplace` and a single `destruct_active` invoke it
exactly once. -/
theorem ts_wrapper_double_destruction :
    (ts_assign .AutoComplexityDestruct packSI 0 (some (7 : ℕ)) exampleSI).1.dtorLog
        = [0, 0] ∧
    (ts_try_emplace .AutoComplexityDestruct packSI 0 (some (7 : ℕ)) exampleSI).dtorLog
        = [0, 0] ∧
    (ts_emplace_and .AutoComplexityDestruct packSI 0 (some (7 : ℕ)) exampleSI).dtorLog
        = [0, 0] ∧
    (emplace .AutoComplexityDestruct packSI 0 (some (7 : ℕ)) exampleSI).1.dtorLog
        = [0] ∧
    (destruct_active .AutoComplexityDestruct packSI exampleSI).dtorLog = [0] := by
  decide

/-- C4: Round-trip.  Emplacing (or assigning) a value of declared alternative
`i` and then reading alternative `i` returns exactly that value, and the
operation completes without an exception. -/
theorem emplace_get_round_trip (policy : DestructionPolicy)
    (pack : List CppType) (i : ℕ) (hn : pack.length < U16) (hi : i < pack.length)
    (v : Value) (s : variant_state Value) :
    get i (emplace policy pack i (some v) s).1 = .ok v ∧
      (emplace policy pack i (some v) s).2 = true ∧
      get i (assign policy pack i (some v) s).1 = .ok v := by
  have hmod : i % U16 = i := Nat.mod_eq_of_lt (lt_trans hi hn)
  refine ⟨?_, rfl, ?_⟩ <;> simp [emplace, assign, construct, get, hmod]

/-- Witness for C4 at `variant<std::string, int>`, emplacing value `9` into
alternative 0. -/
theorem emplace_get_round_trip_witness :
    packSI.length < U16 ∧ 0 < packSI.length ∧
      get 0 (emplace .AutoComplexityDestruct packSI 0 (some (9 : ℕ)) exampleSI).1
        = .ok 9 :=
  ⟨by decide, by decide,
   (emplace_get_round_trip .AutoComplexityDestruct packSI 0 (by decide) (by decide)
      9 exampleSI).1⟩

/-- C5: Typed access.  For a declared alternative index `i < n`, `get` returns
the stored value exactly when the tag equals `i`, throws
`vale::bad_variant_access` whenever the tag differs, and in particular throws
it when the variant is in the invalid state. -/
theorem get_wrong_type_throws (n i : ℕ) (hi : i < n) (s : variant_state Value) :
    (s.type = i → get i s = .ok s.buffer) ∧
      (s.type ≠ i → get i s = .error .bad_variant_access) ∧
      (is_valid n s = false → get i s = .error .bad_variant_access) := by
  refine ⟨fun h => by simp [get, h], fun h => by simp [get, h], fun h => ?_⟩
  have ht : s.type = n := by simpa [is_valid] using h
  simp only [get, ht]
  rw [if_neg (by omega)]

/-- Witness for C5: active access succeeds, inactive and invalid accesses
throw. -/
theorem get_wrong_type_throws_witness :
    (1 : ℕ) < 2 ∧ get 1 exampleGood = .ok exampleGood.buffer ∧
      get 0 exampleGood = .error .bad_variant_access ∧
      get 1 exampleInvalid = .error .bad_variant_access :=
  ⟨by decide,
   (get_wrong_type_throws 2 1 (by decide) exampleGood).1 (by decide),
   (get_wrong_type_throws 2 0 (by decide) exampleGood).2.1 (by decide),
   (get_wrong_type_throws 2 1 (by decide) exampleInvalid).2.2 (by decide)⟩

/-- C6 counterexample.  For a pack of two POD class types the automatic policy
selects the constant-time algorithm (both types are non-fundamental), although
the number of non-trivial (not trivially destructible) types is 0, which is
not strictly greater than 90 percent of 2: the claim, stated with non-trivial
counts, is false on this pack. -/
theorem destructor_complexity_nontrivial_mismatch :
    destructor_complexity .AutoComplexityDestruct podPack = .constant_complexity ∧
      spec_count_non_trivial podPack = 0 ∧
      ¬(10 * spec_count_non_trivial podPack > 9 * podPack.length) := by
  decide

/-- C6 (amended): under the automatic policy, the constant-time destruction
algorithm is selected exactly when the number of non-fundamental types is
strictly greater than 90 percent of the pack size, i.e.
`10 * count_non_fundamental pack > 9 * pack.length`; the C++ integer division
`count > (n * 9) / 10` coincides with this exact rational comparison. -/
theorem destructor_complexity_auto_iff (pack : List CppType) :
    destructor_complexity .AutoComplexityDestruct pack = .constant_complexity ↔
      10 * count_non_fundamental pack > 9 * pack.length := by
  have key : pack.length * 9 / 10 < count_non_fundamental pack ↔
      pack.length * 9 < count_non_fundamental pack * 10 :=
    Nat.div_lt_iff_lt_mul (by norm_num)
  simp only [destructor_complexity]
  split
  · next h =>
      rw [gt_iff_lt, key] at h
      exact ⟨fun _ => by omega, fun _ => rfl⟩
  · next h =>
      rw [gt_iff_lt, key] at h
      constructor
      · intro hc; exact absurd hc (by decide)
      · intro hc; exact absurd hc (by omega)

/-- C7: Array bounds.  `operator[]` succeeds with the stored element for every
in-range index, throws `std::out_of_range` for every out-of-range index, and
in both cases leaves the array contents unchanged. -/
theorem array_bounds {T : Type} {N : ℕ} (hN : 0 < N) (a : varray T N)
    (i : ℕ) (hi : i < N) (k : ℕ) (hk : N ≤ k) :
    (array_subscript a i).1 = .ok (a.buffer ⟨i, hi⟩) ∧
      (array_subscript a i).2 = a ∧
      (array_subscript a k).1 = .error .out_of_range ∧
      (array_subscript a k).2 = a := by
  have hnk : ¬k < N := not_lt.mpr hk
  refine ⟨?_, ?_, ?_, ?_⟩ <;> simp [array_subscript, hi, hnk]

/-- Witness for C7 at a two-element array: index 1 succeeds with the stored
element, index 5 throws and leaves the array unchanged. -/
theorem array_bounds_witness :
    (0 : ℕ) < 2 ∧ (1 : ℕ) < 2 ∧ (2 : ℕ) ≤ 5 ∧
      (array_subscript a2 1).1 = .ok (a2.buffer ⟨1, by decide⟩) ∧
      (array_subscript a2 5).1 = .error .out_of_range ∧
      (array_subscript a2 5).2 = a2 :=
  ⟨by decide, by decide, by decide,
   (array_bounds (by decide) a2 1 (by decide) 5 (by decide)).1,
   (array_bounds (by decide) a2 1 (by decide) 5 (by decide)).2.2.1,
   (array_bounds (by decide) a2 1 (by decide) 5 (by decide)).2.2.2⟩

/-- C8: Visit/print on an invalid variant.  When the pack allows invalidity,
`print` throws `vale::invalid_variant_access` in the invalid state and
dispatches to the formatter of the active alternative in a valid state; when
the pack cannot be invalid it dispatches unconditionally, with no validity
check. -/
theorem print_invalid_variant (pack : List CppType) (s : variant_state Value) :
    (can_be_invalid pack = true → is_valid pack.length s = false →
        print pack s = .error .invalid_variant_access) ∧
      (can_be_invalid pack = true → is_valid pack.length s = true →
        s.type < pack.length → print pack s = .ok s.type) ∧
      (can_be_invalid pack = false → s.type < pack.length →
        print pack s = .ok s.type) := by
  refine ⟨fun h1 h2 => ?_, fun h1 h2 h3 => ?_, fun h1 h2 => ?_⟩ <;>
    simp [print, h1, h2, *]

/-- Witness for C8: printing an invalid `variant<std::string, int>` throws,
printing a valid one dispatches to the active formatter, and printing a
`variant<int, float>` (which cannot be invalid) dispatches unconditionally. -/
theorem print_invalid_variant_witness :
    can_be_invalid packSI = true ∧ is_valid packSI.length exampleInvalid = false ∧
      print packSI exampleInvalid = .error .invalid_variant_access ∧
      print packSI exampleSI = .ok exampleSI.type ∧
      can_be_invalid fundPack = false ∧
      print fundPack exampleGood = .ok exampleGood.type :=
  ⟨by decide, by decide,
   (print_invalid_variant packSI exampleInvalid).1 (by decide) (by decide),
   (print_invalid_variant packSI exampleSI).2.1 (by decide) (by decide) (by decide),
   by decide,
   (print_invalid_variant fundPack exampleGood).2.2 (by decide) (by decide)⟩

/-- C9: Thread-safe conditional access.  `get_and` applies the caller function
to the stored value and returns `true` exactly when the requested alternative
is active, and returns `false` without calling the function otherwise. -/
theorem get_and_conditional (i : ℕ) (s : variant_state Value) :
    (s.type = i → get_and i s = (true, [s.buffer])) ∧
      (s.type ≠ i → get_and i s = (false, [])) := by
  constructor
  · intro h; simp [get_and, holds_active_type, get, h]
  · intro h; simp [get_and, holds_active_type, h]

/-- Witness for C9 on a `variant<std::string, int>` holding a string: asking
for the active alternative calls the function with the stored value, asking
for the inactive one does not. -/
theorem get_and_conditional_witness :
    get_and 0 exampleSI = (true, [exampleSI.buffer]) ∧
      get_and 1 exampleSI = (false, []) :=
  ⟨(get_and_conditional 0 exampleSI).1 (by decide),
   (get_and_conditional 1 exampleSI).2 (by decide)⟩

/-- C10 counterexample.  For `N = 4` and `offset = 1` (an in-range offset), the
zero-size sub-view request does not throw: the guard computes
`1 + 0 - 1 = 0 < 4` without any wraparound and an empty view is returned,
contradicting the claim that every in-range offset throws. -/
theorem to_view_zero_size_counterexample :
    (1 : ℕ) < 4 ∧ to_view 4 1 0 = .ok { off := 1, len := 0 } :=
  ⟨by decide, rfl⟩

/-- C10 (amended): a zero-size sub-view request throws `std::out_of_range`
only at `offset = 0`, where `offset + size - 1` wraps around to `2^64 - 1`;
for every offset with `1 ≤ offset < N` the guard computes `offset - 1 < N`
without wrapping and an empty (zero-length) view is returned. -/
theorem to_view_zero_size (N offset : ℕ) (hN0 : 0 < N) (hN : N < W64)
    (h : offset < N) :
    (offset = 0 → to_view N offset 0 = .error .out_of_range) ∧
      (1 ≤ offset → to_view N offset 0 = .ok { off := offset, len := 0 }) := by
  have hw : W64 = 18446744073709551616 := rfl
  constructor
  · rintro rfl
    have hguard : (0 + 0 + (W64 - 1)) % W64 = W64 - 1 :=
      Nat.mod_eq_of_lt (by omega)
    simp only [to_view, hguard]
    rw [if_neg (by omega)]
  · intro h1
    have he : offset + 0 + (W64 - 1) = W64 + (offset - 1) := by omega
    have hguard : (offset + 0 + (W64 - 1)) % W64 = offset - 1 := by
      rw [he, Nat.add_mod_left]
      exact Nat.mod_eq_of_lt (by omega)
    simp only [to_view, hguard]
    rw [if_pos (by omega)]

/-- Witness for C10 (amended) at `N = 4`: offset 0 throws, offset 3 yields an
empty view. -/
theorem to_view_zero_size_witness :
    (0 : ℕ) < 4 ∧ (4 : ℕ) < W64 ∧ (3 : ℕ) < 4 ∧
      to_view 4 0 0 = .error .out_of_range ∧
      to_view 4 3 0 = .ok { off := 3, len := 0 } :=
  ⟨by decide, by decide, by decide,
   (to_view_zero_size 4 0 (by decide) (by decide) (by decide)).1 rfl,
   (to_view_zero_size 4 3 (by decide) (by decide) (by decide)).2 (by decide)⟩

end vale
